import Mathlib

/-!
Verification of the weather-enrichment subsystem and shipment lookup of the
shipment-tracker API.

The definitions below are a shallow embedding of the Python source:
* `services/weather_service.py` (`WeatherService`): the two-tier cache
  (`_get_from_cache`, `_save_to_cache`, `clear_cache`), the address parsing in
  `get_weather_from_address`, and the upstream fetch in `get_weather`.
* `services/shipment_service.py` (`ShipmentService.get_shipment`,
  `ShipmentService.get_all_shipments`).

Modelling conventions:
* Time is an abstract instant in whole seconds (`Nat`); `datetime.now()` is an
  explicit `now` parameter threaded through each operation.
* Python's dynamically-typed JSON values are the inductive `Json`; numeric
  leaves carry `Int` (no claim computes with the numeric values, they are only
  copied verbatim, so the carrier type of a number is irrelevant).
* A Python `dict` is an association list with first-match lookup;
  `dict[k] = v` replaces any previous binding.
* The Redis tier is a `RedisState`: `absent` (no client configured, every
  guarded block is skipped), `failing` (every operation raises, mirroring the
  `try/except Exception` blocks of the source), or `store` (a working store).
* Exceptions are `Except`; the source's `try/except` clauses become `match`
  on the error value.
* `get_weather` also returns the list of observable effects it performed
  (cache lookup, outbound HTTP request, cache write), so that claims about
  "no cache or network interaction" are statable.
-/

namespace ShipmentTracker

/-- Dynamically-typed JSON value (Python object decoded by `response.json()`). -/
inductive Json where
  | str (s : String)
  | num (n : Int)
  | arr (elems : List Json)
  | obj (fields : List (String × Json))

/-- First-match association-list lookup: Python `dict` read access. -/
def alistLookup {α : Type} (key : String) : List (String × α) → Option α
  | [] => none
  | (k, v) :: rest => if k = key then some v else alistLookup key rest

/-- Remove every binding of `key`: Python `del dict[key]`. -/
def alistErase {α : Type} (key : String) (l : List (String × α)) :
    List (String × α) :=
  l.filter (fun kv => kv.1 ≠ key)

/-- Overwrite the binding of `key`: Python `dict[key] = v`. -/
def alistInsert {α : Type} (key : String) (v : α) (l : List (String × α)) :
    List (String × α) :=
  (key, v) :: alistErase key l

/-- The `Weather` dataclass (`models/weather.py`).  The dataclass performs no
runtime type checking, so the fields populated from the provider's JSON keep
the `Json` payload; `zip_code`/`country` are the strings the caller passed and
`timestamp` is the construction instant. -/
structure Weather where
  location : Json
  zip_code : String
  country : String
  temperature : Json
  feels_like : Json
  description : Json
  humidity : Json
  wind_speed : Json
  timestamp : Nat

/-- One entry of `WeatherService.memory_cache`: the dict
`{'weather': ..., 'expires_at': ...}`. -/
structure LocalEntry where
  weather : Weather
  expires_at : Nat

/-- A value stored in Redis by `setex`: the serialized record together with the
absolute instant at which Redis itself expires the key.  (De)serialization is
modelled as exact. -/
structure RedisEntry where
  weather : Weather
  redis_expires_at : Nat

/-- State of the shared (Redis) tier. -/
inductive RedisState where
  | absent
  | failing
  | store (entries : List (String × RedisEntry))

/-- Mutable state of `WeatherService` relevant to caching. -/
structure CacheState where
  memory_cache : List (String × LocalEntry)
  redis : RedisState

/-- `self.cache_duration = timedelta(hours=2)`, in whole seconds
(`int(self.cache_duration.total_seconds())`). -/
def cache_duration : Nat := 7200

/-- Redis `GET` inside `_get_from_cache`: `absent` means `self.redis_client`
is `None` and the block is skipped (no value); `failing` raises (the caller's
`except Exception: pass` swallows it); a working store returns the entry
unless Redis has already expired it. -/
def redisGet (now : Nat) (key : String) : RedisState → Except Unit (Option RedisEntry)
  | .absent => .ok none
  | .failing => .error ()
  | .store entries =>
    .ok (match alistLookup key entries with
      | some e => if now < e.redis_expires_at then some e else none
      | none => none)

/-- Redis `SETEX key ttl value` inside `_save_to_cache`. -/
def redisSetex (now : Nat) (key : String) (w : Weather) :
    RedisState → Except Unit RedisState
  | .absent => .ok .absent
  | .failing => .error ()
  | .store entries =>
    .ok (.store (alistInsert key ⟨w, now + cache_duration⟩ entries))

/-- Redis `scan_iter("weather:*")` + `delete` inside `clear_cache`. -/
def redisClearWeather : RedisState → Except Unit RedisState
  | .absent => .ok .absent
  | .failing => .error ()
  | .store entries =>
    .ok (.store (entries.filter (fun kv => ¬ kv.1.startsWith "weather:")))

/-- The Redis half of `_get_from_cache` (lines 61–88): on a hit, backfill the
local tier with a fresh local expiration `now + cache_duration` and return the
record; any Redis failure is swallowed and treated as a miss. -/
def getFromRedis (now : Nat) (key : String) (s : CacheState) :
    Option Weather × CacheState :=
  match redisGet now key s.redis with
  | .error _ => (none, s)
  | .ok none => (none, s)
  | .ok (some e) =>
    (some e.weather,
     ⟨alistInsert key ⟨e.weather, now + cache_duration⟩ s.memory_cache, s.redis⟩)

/-- `WeatherService._get_from_cache`: local tier first (strict
`now < expires_at` validity; expired entries are deleted), then the Redis
tier. -/
def getFromCache (now : Nat) (key : String) (s : CacheState) :
    Option Weather × CacheState :=
  match alistLookup key s.memory_cache with
  | some e =>
    if now < e.expires_at then
      (some e.weather, s)
    else
      getFromRedis now key ⟨alistErase key s.memory_cache, s.redis⟩
  | none => getFromRedis now key s

/-- `WeatherService._save_to_cache`: attempt the Redis write (failures
swallowed), then unconditionally write the local tier with expiration
`now + cache_duration`. -/
def saveToCache (now : Nat) (key : String) (w : Weather) (s : CacheState) :
    CacheState :=
  let redis' := match redisSetex now key w s.redis with
    | .error _ => s.redis
    | .ok r => r
  ⟨alistInsert key ⟨w, now + cache_duration⟩ s.memory_cache, redis'⟩

/-- `WeatherService.clear_cache`: best-effort delete of `weather:*` keys in
Redis (failures swallowed), then unconditional `memory_cache.clear()`. -/
def clearCache (s : CacheState) : CacheState :=
  let redis' := match redisClearWeather s.redis with
    | .error _ => s.redis
    | .ok r => r
  ⟨[], redis'⟩

/-! ### String helpers mirroring the Python built-ins (ASCII fragment) -/

/-- The whitespace characters stripped by Python `str.strip()` /
split on by `str.split()` (ASCII fragment). -/
def isPySpace (c : Char) : Bool :=
  c = ' ' || c = '\t' || c = '\n' || c = '\r' || c = '\x0b' || c = '\x0c'

/-- Python `str.strip()`. -/
def pyStrip (s : String) : String :=
  ⟨((s.data.dropWhile isPySpace).reverse.dropWhile isPySpace).reverse⟩

/-- Split a character list at every separator (characters satisfying `p`),
keeping empty pieces — the semantics of Python `str.split(sep)` for a
one-character separator.  `acc` holds the current piece reversed. -/
def splitCharsBy (p : Char → Bool) : List Char → List Char → List String
  | [], acc => [⟨acc.reverse⟩]
  | c :: rest, acc =>
    if p c then ⟨acc.reverse⟩ :: splitCharsBy p rest []
    else splitCharsBy p rest (c :: acc)

/-- Python `str.split(',')`. -/
def pySplitComma (s : String) : List String :=
  splitCharsBy (fun c => c = ',') s.data []

/-- Python `str.split()` with no argument: split on whitespace runs,
discarding empty pieces. -/
def pySplitWs (s : String) : List String :=
  (splitCharsBy isPySpace s.data []).filter (fun t => t ≠ "")

/-- Python `str.lower()` (ASCII fragment). -/
def pyLower (s : String) : String :=
  ⟨s.data.map Char.toLower⟩

/-- Python `str.replace('-', '')`: drop every hyphen. -/
def pyRemoveDashes (s : String) : String :=
  ⟨s.data.filter (fun c => c ≠ '-')⟩

/-- Python `str.isdigit()` (ASCII fragment): non-empty and all digits. -/
def pyIsdigit (s : String) : Bool :=
  !s.data.isEmpty && s.data.all Char.isDigit

/-! ### Errors, JSON access and the upstream fetch -/

/-- The exceptions `get_weather` can raise or handle.  `valueError` is the
classified error the service itself constructs; `requestError` models
`httpx.RequestError` (transport failure); `httpStatusError` models
`httpx.HTTPStatusError` raised by `response.raise_for_status()` — in httpx it
is NOT a subclass of `RequestError`; `keyError` carries `str(e)`, i.e. the
`repr` of the missing key. -/
inductive PyError where
  | valueError (msg : String)
  | requestError (msg : String)
  | httpStatusError (status : Nat)
  | keyError (key_repr : String)
  | indexError
  | typeError
deriving DecidableEq

/-- Python subscript `j[k]` for a string key: `KeyError` carries the key's
`repr` (quoted); subscripting a non-dict raises `TypeError` (for the
list/str cases a string key is not an index, which Python also reports as
`TypeError`). -/
def getKey (j : Json) (k : String) : Except PyError Json :=
  match j with
  | .obj fields =>
    match alistLookup k fields with
    | some v => .ok v
    | none => .error (.keyError ("'" ++ k ++ "'"))
  | _ => .error .typeError

/-- Python subscript `j[0]`: first element of a list (or character of a
string), `IndexError` when empty, `KeyError` with repr `0` on a dict,
`TypeError` on a number. -/
def getIndexZero (j : Json) : Except PyError Json :=
  match j with
  | .arr (x :: _) => .ok x
  | .arr [] => .error .indexError
  | .obj _ => .error (.keyError "0")
  | .str s =>
    match s.data with
    | c :: _ => .ok (.str ⟨[c]⟩)
    | [] => .error .indexError
  | .num _ => .error .typeError

/-- Construction of the `Weather` record from the decoded response body
(lines 164–173), with the subscripts evaluated in Python's keyword-argument
order: `data['name']`, `data['main']['temp']`, `data['main']['feels_like']`,
`data['weather'][0]['description']`, `data['main']['humidity']`,
`data['wind']['speed']`; `timestamp` is `datetime.now()`. -/
def buildWeather (now : Nat) (zip_code country : String) (data : Json) :
    Except PyError Weather :=
  match getKey data "name" with
  | .error e => .error e
  | .ok location =>
  match getKey data "main" with
  | .error e => .error e
  | .ok main1 =>
  match getKey main1 "temp" with
  | .error e => .error e
  | .ok temperature =>
  match getKey data "main" with
  | .error e => .error e
  | .ok main2 =>
  match getKey main2 "feels_like" with
  | .error e => .error e
  | .ok feels_like =>
  match getKey data "weather" with
  | .error e => .error e
  | .ok wlist =>
  match getIndexZero wlist with
  | .error e => .error e
  | .ok cond0 =>
  match getKey cond0 "description" with
  | .error e => .error e
  | .ok description =>
  match getKey data "main" with
  | .error e => .error e
  | .ok main3 =>
  match getKey main3 "humidity" with
  | .error e => .error e
  | .ok humidity =>
  match getKey data "wind" with
  | .error e => .error e
  | .ok wind1 =>
  match getKey wind1 "speed" with
  | .error e => .error e
  | .ok wind_speed =>
    .ok { location := location, zip_code := zip_code, country := country,
          temperature := temperature, feels_like := feels_like,
          description := description, humidity := humidity,
          wind_speed := wind_speed, timestamp := now }

/-- Outcome of the one outbound HTTP request `self.http_client.get(...)`:
either a transport failure (`httpx.RequestError`, with `str(e)`) or a
response with a status code and decoded JSON body. -/
inductive HttpResult where
  | transportError (msg : String)
  | response (status : Nat) (body : Json)

/-- Observable effects of `get_weather`, recorded in order: a cache lookup
(`_get_from_cache`), an outbound HTTP request, a cache write
(`_save_to_cache`). -/
inductive Event where
  | cacheGet (key : String)
  | httpRequest (zip_code country : String)
  | cachePut (key : String)
deriving DecidableEq

/-- `not self.api_key or self.api_key.strip() == ""` (line 137): the key is
missing (`None`), empty (falsy), or whitespace-only. -/
def apiKeyBlank : Option String → Bool
  | none => true
  | some k => k = "" || pyStrip k = ""

/-- The cache key `f"weather:{zip_code}:{country.lower()}"` (line 140). -/
def cacheKey (zip_code country : String) : String :=
  "weather:" ++ zip_code ++ ":" ++ pyLower country

/-- `WeatherService.get_weather` (lines 135–183).  The `try` block's outcome
is computed first; the two `except` clauses then rewrite `requestError` and
`keyError` into the classified `ValueError`s, and leave every other
exception (in particular `httpx.HTTPStatusError` from
`response.raise_for_status()`, and `IndexError`) to propagate unchanged.
`raise_for_status` raises exactly when the status is not 2xx. -/
def get_weather (api_key : Option String) (now : Nat) (zip_code country : String)
    (http : HttpResult) (s : CacheState) :
    Except PyError Weather × CacheState × List Event :=
  if apiKeyBlank api_key then
    (.error (.valueError "Weather API key not configured"), s, [])
  else
    let key := cacheKey zip_code country
    match getFromCache now key s with
    | (some w, s1) => (.ok w, s1, [.cacheGet key])
    | (none, s1) =>
      let tryBlock : Except PyError (Weather × CacheState) :=
        match http with
        | .transportError msg => .error (.requestError msg)
        | .response status body =>
          if status < 200 || 300 ≤ status then
            .error (.httpStatusError status)
          else
            match buildWeather now zip_code country body with
            | .error e => .error e
            | .ok w => .ok (w, saveToCache now key w s1)
      match tryBlock with
      | .ok (w, s2) =>
        (.ok w, s2, [.cacheGet key, .httpRequest zip_code country, .cachePut key])
      | .error (.requestError msg) =>
        (.error (.valueError ("Failed to fetch weather data: " ++ msg)), s1,
         [.cacheGet key, .httpRequest zip_code country])
      | .error (.keyError kr) =>
        (.error (.valueError ("Invalid weather API response: missing " ++ kr)), s1,
         [.cacheGet key, .httpRequest zip_code country])
      | .error e =>
        (.error e, s1, [.cacheGet key, .httpRequest zip_code country])

/-! ### Address parsing (`get_weather_from_address`, lines 111–133) -/

/-- The loop `for part in zip_parts: if part.replace('-', '').isdigit():
zip_code = part; break` over `city_part.split()`. -/
def firstZipToken (city_part : String) : Option String :=
  (pySplitWs city_part).find? (fun t => pyIsdigit (pyRemoveDashes t))

/-- The address-parsing portion of `get_weather_from_address`: split on
commas, strip each part, require at least 3 parts, country = last part,
ZIP = first digits-and-hyphens token of the second-to-last part; `None`
unless both ZIP and country are non-empty (`if zip_code and country`). -/
def resolveAddress (address : String) : Option (String × String) :=
  match ((pySplitComma address).map pyStrip).reverse with
  | country :: city_part :: _ :: _ =>
    (match firstZipToken city_part with
     | some z => if z ≠ "" ∧ country ≠ "" then some (z, country) else none
     | none => none)
  | _ => none

/-- `WeatherService.get_weather_from_address`: resolve the address; on
success delegate to `get_weather` (whose exceptions propagate), otherwise
return `None` having performed no cache or network operation. -/
def get_weather_from_address (api_key : Option String) (now : Nat)
    (address : String) (http : HttpResult) (s : CacheState) :
    Except PyError (Option Weather) × CacheState × List Event :=
  match resolveAddress address with
  | some (z, c) =>
    match get_weather api_key now z c http s with
    | (.ok w, s1, tr) => (.ok (some w), s1, tr)
    | (.error e, s1, tr) => (.error e, s1, tr)
  | none => (.ok none, s, [])

/-! ### ShipmentService (`services/shipment_service.py`) -/

/-- The `Address` dataclass. -/
structure Address where
  address : String
deriving DecidableEq

/-- The `Article` dataclass. -/
structure Article where
  name : String
  quantity : Int
  price : Int
  sku : Option String
deriving DecidableEq

/-- The `Shipment` dataclass (timestamps omitted: no claim mentions them). -/
structure Shipment where
  tracking_number : String
  carrier : String
  articles : List Article
  sender : Address
  receiver : Address
  status : String
deriving DecidableEq

/-- `ShipmentService.get_shipment` (lines 68–77): look the tracking number up;
when a carrier filter is given (`if shipment and carrier:` — `None` and the
empty string are both falsy) and its lowercase form differs from the
shipment's lowercase carrier, return `None`. -/
def get_shipment (shipments : List (String × Shipment))
    (tracking_number : String) (carrier : Option String) : Option Shipment :=
  match alistLookup tracking_number shipments with
  | none => none
  | some sh =>
    match carrier with
    | none => some sh
    | some c =>
      if c ≠ "" then
        if pyLower sh.carrier ≠ pyLower c then none else some sh
      else some sh

/-- `ShipmentService.get_all_shipments` (lines 79–86): all stored shipments,
filtered by lowercase carrier equality when a truthy filter is given. -/
def get_all_shipments (shipments : List (String × Shipment))
    (carrier : Option String) : List Shipment :=
  match carrier with
  | some c =>
    if c ≠ "" then
      (shipments.map Prod.snd).filter (fun sh => pyLower sh.carrier == pyLower c)
    else
      shipments.map Prod.snd
  | none => shipments.map Prod.snd

/-! ### Spec-side reference definitions

These definitions follow the words of the specification (not the source);
they exist only to be compared against the embedded code. -/

/-- What the local tier alone holds for `key` at instant `now`: a present,
unexpired entry's record, under the spec's validity notion
`now < expires_at`. -/
def localTierGet (now : Nat) (key : String)
    (mem : List (String × LocalEntry)) : Option Weather :=
  match alistLookup key mem with
  | some e => if now < e.expires_at then some e.weather else none
  | none => none

/-- The local tier after one observation of `key` at instant `now`: an
expired entry is purged, everything else is untouched. -/
def localTierPurge (now : Nat) (key : String)
    (mem : List (String × LocalEntry)) : List (String × LocalEntry) :=
  match alistLookup key mem with
  | some e => if now < e.expires_at then mem else alistErase key mem
  | none => mem

/-- The claim's token predicate, word for word: the token "consists only of
digits and hyphens". -/
def claimZipToken (t : String) : Bool :=
  t.data.all (fun c => c.isDigit || c = '-')

/-- The amended token predicate: only digits and hyphens, and at least one
digit (what `part.replace('-', '').isdigit()` actually tests). -/
def amendedZipToken (t : String) : Bool :=
  t.data.all (fun c => c.isDigit || c = '-') && t.data.any (fun c => c.isDigit)

/-- The resolver exactly as the claim words it: last trimmed segment is the
country, and the postal code is the first token of the second-to-last
segment satisfying `claimZipToken`. -/
def specResolveClaim (address : String) : Option (String × String) :=
  match ((pySplitComma address).map pyStrip).reverse with
  | country :: city_part :: _ :: _ =>
    (match (pySplitWs city_part).find? claimZipToken with
     | some z => if z ≠ "" ∧ country ≠ "" then some (z, country) else none
     | none => none)
  | _ => none

/-- The resolver as the amended claim words it: same as `specResolveClaim`
but with `amendedZipToken`. -/
def specResolveAmended (address : String) : Option (String × String) :=
  match ((pySplitComma address).map pyStrip).reverse with
  | country :: city_part :: _ :: _ =>
    (match (pySplitWs city_part).find? amendedZipToken with
     | some z => if z ≠ "" ∧ country ≠ "" then some (z, country) else none
     | none => none)
  | _ => none

/-! ### Concrete response bodies and sample records -/

/-- A well-formed provider response body, with the six data leaves as
parameters. -/
def bodyFull (vname vtemp vfeels vhum vdesc vwind : Json) : Json :=
  .obj [("name", vname),
        ("main", .obj [("temp", vtemp), ("feels_like", vfeels), ("humidity", vhum)]),
        ("weather", .arr [.obj [("description", vdesc)]]),
        ("wind", .obj [("speed", vwind)])]

/-- `bodyFull` without the `name` key. -/
def bodyNoName (vtemp vfeels vhum vdesc vwind : Json) : Json :=
  .obj [("main", .obj [("temp", vtemp), ("feels_like", vfeels), ("humidity", vhum)]),
        ("weather", .arr [.obj [("description", vdesc)]]),
        ("wind", .obj [("speed", vwind)])]

/-- `bodyFull` without `main.temp`. -/
def bodyNoTemp (vname vfeels vhum vdesc vwind : Json) : Json :=
  .obj [("name", vname),
        ("main", .obj [("feels_like", vfeels), ("humidity", vhum)]),
        ("weather", .arr [.obj [("description", vdesc)]]),
        ("wind", .obj [("speed", vwind)])]

/-- `bodyFull` without `main.feels_like`. -/
def bodyNoFeels (vname vtemp vhum vdesc vwind : Json) : Json :=
  .obj [("name", vname),
        ("main", .obj [("temp", vtemp), ("humidity", vhum)]),
        ("weather", .arr [.obj [("description", vdesc)]]),
        ("wind", .obj [("speed", vwind)])]

/-- `bodyFull` with a condition element that has no `description` key. -/
def bodyNoDesc (vname vtemp vfeels vhum vwind : Json) : Json :=
  .obj [("name", vname),
        ("main", .obj [("temp", vtemp), ("feels_like", vfeels), ("humidity", vhum)]),
        ("weather", .arr [.obj []]),
        ("wind", .obj [("speed", vwind)])]

/-- `bodyFull` without `main.humidity`. -/
def bodyNoHumidity (vname vtemp vfeels vdesc vwind : Json) : Json :=
  .obj [("name", vname),
        ("main", .obj [("temp", vtemp), ("feels_like", vfeels)]),
        ("weather", .arr [.obj [("description", vdesc)]]),
        ("wind", .obj [("speed", vwind)])]

/-- `bodyFull` without `wind.speed`. -/
def bodyNoSpeed (vname vtemp vfeels vhum vdesc : Json) : Json :=
  .obj [("name", vname),
        ("main", .obj [("temp", vtemp), ("feels_like", vfeels), ("humidity", vhum)]),
        ("weather", .arr [.obj [("description", vdesc)]]),
        ("wind", .obj [])]

/-- `bodyFull` with an empty condition list (`weather: []`). -/
def bodyEmptyConditions (vname vtemp vfeels vhum vwind : Json) : Json :=
  .obj [("name", vname),
        ("main", .obj [("temp", vtemp), ("feels_like", vfeels), ("humidity", vhum)]),
        ("weather", .arr []),
        ("wind", .obj [("speed", vwind)])]

/-- A sample weather record used in concrete instances. -/
def wSample : Weather :=
  { location := .str "Berlin", zip_code := "10115", country := "DE",
    temperature := .num 20, feels_like := .num 18, description := .str "clear sky",
    humidity := .num 60, wind_speed := .num 5, timestamp := 0 }

/-- A sample shipment used in concrete instances. -/
def shSample : Shipment :=
  { tracking_number := "TN1", carrier := "DHL", articles := [],
    sender := ⟨"Sender St 1, 20095 Hamburg, Germany"⟩,
    receiver := ⟨"Receiver St 2, 10115 Berlin, Germany"⟩,
    status := "in transit" }

/-! ### Helper lemmas about the association-list operations -/

theorem alistLookup_insert_self {α : Type} (key : String) (v : α)
    (l : List (String × α)) : alistLookup key (alistInsert key v l) = some v := by
  simp [alistInsert, alistLookup]

theorem alistLookup_erase_self {α : Type} (key : String)
    (l : List (String × α)) : alistLookup key (alistErase key l) = none := by
  induction l with
  | nil => rfl
  | cons kv rest ih =>
    by_cases h : kv.1 = key
    · simpa [alistErase, h] using ih
    · simpa [alistErase, alistLookup, h] using ih

theorem alistErase_erase {α : Type} (key : String) (l : List (String × α)) :
    alistErase key (alistErase key l) = alistErase key l := by
  induction l with
  | nil => rfl
  | cons kv rest ih =>
    by_cases h : kv.1 = key
    · simp [alistErase, h]
    · simp only [alistErase, List.filter] at ih ⊢
      simp [h, ih]

/-- `cache_duration` is a positive span, so `now + cache_duration` is a
strictly future instant. -/
theorem lt_add_cache_duration (now : Nat) : now < now + cache_duration := by
  have : 0 < cache_duration := by norm_num [cache_duration]
  omega

/-- Case analysis of the Redis half of `_get_from_cache`: it either misses
(returning the state untouched) or hits, backfilling the local tier with the
fresh expiration `now + cache_duration`. -/
theorem getFromRedis_spec (now : Nat) (key : String) (s : CacheState) :
    getFromRedis now key s = (none, s)
  ∨ (∃ e, redisGet now key s.redis = .ok (some e) ∧
      getFromRedis now key s
        = (some e.weather,
           ⟨alistInsert key ⟨e.weather, now + cache_duration⟩ s.memory_cache,
            s.redis⟩)) := by
  unfold getFromRedis
  rcases hr : redisGet now key s.redis with u | o
  · left; rfl
  · rcases o with _ | e
    · left; rfl
    · right; exact ⟨e, rfl, rfl⟩

/-! ### C3 — put/get round trip through the local tier -/

/-- C3: for every key, record and cache state — in particular whatever the
shared tier's state is, reachable, absent or failing — `put` followed
immediately by `get` returns exactly the stored record, because the local
tier write is unconditional and the freshly written entry is unexpired. -/
theorem c3_put_get_roundtrip (now : Nat) (key : String) (w : Weather)
    (s : CacheState) :
    getFromCache now key (saveToCache now key w s)
      = (some w, saveToCache now key w s) := by
  have h := lt_add_cache_duration now
  simp [getFromCache, saveToCache, alistLookup_insert_self, h]

/-! ### C6 — shared-tier failures are swallowed -/

/-- C6: when every Redis operation raises, `get` returns exactly what the
local tier holds (with the expired-entry purge), `put` still writes the local
tier, and `clear` still empties it; no failure propagates and the Redis state
is left as-is. -/
theorem c6_shared_tier_failure_swallowed (now : Nat) (key : String)
    (w : Weather) (mem : List (String × LocalEntry)) :
    getFromCache now key ⟨mem, .failing⟩
      = (localTierGet now key mem, ⟨localTierPurge now key mem, .failing⟩)
  ∧ saveToCache now key w ⟨mem, .failing⟩
      = ⟨alistInsert key ⟨w, now + cache_duration⟩ mem, .failing⟩
  ∧ clearCache ⟨mem, .failing⟩ = ⟨[], .failing⟩ := by
  refine ⟨?_, rfl, rfl⟩
  cases hmem : alistLookup key mem with
  | none => simp [getFromCache, getFromRedis, redisGet, localTierGet,
      localTierPurge, hmem]
  | some e =>
    by_cases h : now < e.expires_at <;>
      simp [getFromCache, getFromRedis, redisGet, localTierGet,
        localTierPurge, hmem, h]

/-! ### C9 — blank credential raises before any cache access -/

/-- C9: with a missing, empty or whitespace-only API key, `get_weather`
raises the configuration `ValueError` immediately: the state (both tiers) is
returned untouched and the effect trace is empty, for every state — in
particular one whose cache holds a valid record for the requested key. -/
theorem c9_blank_api_key_raises_before_cache (api_key : Option String)
    (now : Nat) (zip_code country : String) (http : HttpResult)
    (s : CacheState) (h : apiKeyBlank api_key = true) :
    get_weather api_key now zip_code country http s
      = (.error (.valueError "Weather API key not configured"), s, []) := by
  simp [get_weather, h]

/-- C9 witness: a whitespace-only key, and a cache already holding a valid,
unexpired record under the requested key — the call still raises and the
record is not returned. -/
theorem c9_blank_api_key_raises_before_cache_witness :
    get_weather (some "   ") 5 "10115" "DE"
        (.response 200 (bodyFull (.str "Berlin") (.num 20) (.num 18) (.num 60)
          (.str "clear sky") (.num 5)))
        ⟨[("weather:10115:de", ⟨wSample, 999⟩)], .absent⟩
      = (.error (.valueError "Weather API key not configured"),
         ⟨[("weather:10115:de", ⟨wSample, 999⟩)], .absent⟩, []) :=
  c9_blank_api_key_raises_before_cache (some "   ") 5 "10115" "DE"
    (.response 200 (bodyFull (.str "Berlin") (.num 20) (.num 18) (.num 60)
      (.str "clear sky") (.num 5)))
    ⟨[("weather:10115:de", ⟨wSample, 999⟩)], .absent⟩ rfl

/-! ### C1 — HTTP 500 versus transport failure -/

/-- C1 (code bug): on an HTTP 500 the embedded `get_weather` propagates the
raw `httpx.HTTPStatusError` — `response.raise_for_status()` raises an
exception that is not a `httpx.RequestError`, so the `except` clause that
builds the classified "Failed to fetch weather data" `ValueError` does not
catch it — while a genuine transport failure is classified as the claim
says.  In both cases the state is unchanged: no cache write (neither tier)
occurs for the key. -/
theorem c1_http_500_unclassified_no_cache_write :
    get_weather (some "apikey") 0 "10115" "DE"
        (.response 500 (bodyFull (.str "Berlin") (.num 20) (.num 18) (.num 60)
          (.str "clear sky") (.num 5)))
        ⟨[], .absent⟩
      = (.error (.httpStatusError 500), ⟨[], .absent⟩,
         [.cacheGet "weather:10115:de", .httpRequest "10115" "DE"])
  ∧ get_weather (some "apikey") 0 "10115" "DE"
        (.transportError "connection refused") ⟨[], .absent⟩
      = (.error (.valueError "Failed to fetch weather data: connection refused"),
         ⟨[], .absent⟩,
         [.cacheGet "weather:10115:de", .httpRequest "10115" "DE"]) :=
  ⟨rfl, rfl⟩

/-! ### C2 — validity invariant and purge-on-observation -/

/-- C2: a `get` (i) never returns a record except from an entry that, in the
post-state local tier, is strictly unexpired (`now < expires_at`), and
(ii) after one `get` attempt on a key whose local entry is expired, that
expired entry is gone — any entry now under the key is strictly unexpired
(hence a fresh backfill, not the old entry). -/
theorem c2_get_validity_and_purge (now : Nat) (key : String) (s : CacheState) :
    (∀ w, (getFromCache now key s).1 = some w →
      ∃ e, alistLookup key (getFromCache now key s).2.memory_cache = some e ∧
        e.weather = w ∧ now < e.expires_at)
  ∧ (∀ e, alistLookup key s.memory_cache = some e → e.expires_at ≤ now →
      ∀ e2, alistLookup key (getFromCache now key s).2.memory_cache = some e2 →
        now < e2.expires_at) := by
  constructor
  · intro w hw
    cases hmem : alistLookup key s.memory_cache with
    | some e =>
      by_cases hexp : now < e.expires_at
      · have hg : getFromCache now key s = (some e.weather, s) := by
          unfold getFromCache
          rw [hmem]
          simp [hexp]
        rw [hg] at hw ⊢
        refine ⟨e, hmem, ?_, hexp⟩
        simpa using hw
      · have hg : getFromCache now key s
            = getFromRedis now key ⟨alistErase key s.memory_cache, s.redis⟩ := by
          unfold getFromCache
          rw [hmem]
          simp [hexp]
        rcases getFromRedis_spec now key ⟨alistErase key s.memory_cache, s.redis⟩
          with hnone | ⟨e2, _, hsome⟩
        · rw [hg, hnone] at hw
          simp at hw
        · rw [hg, hsome] at hw ⊢
          refine ⟨⟨e2.weather, now + cache_duration⟩, ?_, ?_,
            lt_add_cache_duration now⟩
          · exact alistLookup_insert_self key _ _
          · simpa using hw
    | none =>
      have hg : getFromCache now key s = getFromRedis now key s := by
        unfold getFromCache
        rw [hmem]
      rcases getFromRedis_spec now key s with hnone | ⟨e2, _, hsome⟩
      · rw [hg, hnone] at hw
        simp at hw
      · rw [hg, hsome] at hw ⊢
        refine ⟨⟨e2.weather, now + cache_duration⟩, ?_, ?_,
          lt_add_cache_duration now⟩
        · exact alistLookup_insert_self key _ _
        · simpa using hw
  · intro e hmem hexp e2 h2
    have hnotlt : ¬ now < e.expires_at := by omega
    have hg : getFromCache now key s
        = getFromRedis now key ⟨alistErase key s.memory_cache, s.redis⟩ := by
      unfold getFromCache
      rw [hmem]
      simp [hnotlt]
    rcases getFromRedis_spec now key ⟨alistErase key s.memory_cache, s.redis⟩
      with hnone | ⟨e3, _, hsome⟩
    · rw [hg, hnone] at h2
      rw [show (⟨alistErase key s.memory_cache, s.redis⟩ :
            CacheState).memory_cache = alistErase key s.memory_cache from rfl,
          alistLookup_erase_self] at h2
      exact Option.noConfusion h2
    · rw [hg, hsome] at h2
      rw [show (⟨alistInsert key ⟨e3.weather, now + cache_duration⟩
            (alistErase key s.memory_cache), s.redis⟩ :
            CacheState).memory_cache
          = alistInsert key ⟨e3.weather, now + cache_duration⟩
            (alistErase key s.memory_cache) from rfl,
          alistLookup_insert_self] at h2
      have he2 : e2 = ⟨e3.weather, now + cache_duration⟩ := by
        simpa using h2.symm
      rw [he2]
      exact lt_add_cache_duration now

/-! ### C7 — shared-tier hit backfills with a fresh local TTL -/

/-- C7: when the local tier has no valid entry for `key` (absent, or present
but expired) and the shared tier holds an unexpired entry `e` — whatever
remaining shared TTL `e.redis_expires_at` encodes — `get` returns `e`'s
record and writes it to the local tier with the freshly computed expiration
`now + cache_duration`, independent of the shared tier's remaining TTL. -/
theorem c7_redis_hit_backfill (now : Nat) (key : String)
    (mem : List (String × LocalEntry)) (entries : List (String × RedisEntry))
    (e : RedisEntry)
    (hloc : ∀ l, alistLookup key mem = some l → l.expires_at ≤ now)
    (hred : alistLookup key entries = some e)
    (hfresh : now < e.redis_expires_at) :
    getFromCache now key ⟨mem, .store entries⟩
      = (some e.weather,
         ⟨alistInsert key ⟨e.weather, now + cache_duration⟩ mem,
          .store entries⟩) := by
  cases hmem : alistLookup key mem with
  | none =>
    unfold getFromCache
    rw [hmem]
    unfold getFromRedis
    simp only [redisGet]
    rw [hred]
    simp [hfresh]
  | some l =>
    have h1 : ¬ now < l.expires_at := by
      have := hloc l hmem
      omega
    unfold getFromCache
    rw [hmem]
    simp only [h1, if_false]
    unfold getFromRedis
    simp only [redisGet]
    rw [hred]
    simp only [hfresh, if_true]
    simp [alistInsert, alistErase_erase]

/-- C7 witness: key absent from the local tier, present in the shared tier
with remaining shared TTL up to instant 50; at instant 10 the backfilled
local expiration is `10 + cache_duration`, not 50. -/
theorem c7_redis_hit_backfill_witness :
    getFromCache 10 "weather:10115:de"
        ⟨[], .store [("weather:10115:de", ⟨wSample, 50⟩)]⟩
      = (some wSample,
         ⟨alistInsert "weather:10115:de" ⟨wSample, 10 + cache_duration⟩ [],
          .store [("weather:10115:de", ⟨wSample, 50⟩)]⟩) :=
  c7_redis_hit_backfill 10 "weather:10115:de" []
    [("weather:10115:de", ⟨wSample, 50⟩)] ⟨wSample, 50⟩
    (fun l hl => Option.noConfusion hl) rfl (by decide)

/-! ### C8 — unresolvable addresses cause no cache or network interaction -/

/-- C8: an address with fewer than 3 comma-separated segments never
resolves; and for every unresolvable address, `get_weather_from_address`
returns `None` with the state (both cache tiers) untouched and an empty
effect trace — no cache lookup, no cache write, no outbound request. -/
theorem c8_unresolvable_address_no_io (api_key : Option String) (now : Nat)
    (address : String) (http : HttpResult) (s : CacheState) :
    ((pySplitComma address).length < 3 → resolveAddress address = none)
  ∧ (resolveAddress address = none →
      get_weather_from_address api_key now address http s = (.ok none, s, [])) := by
  constructor
  · intro h
    have hlen : (((pySplitComma address).map pyStrip).reverse).length < 3 := by
      simpa using h
    unfold resolveAddress
    rcases hx : ((pySplitComma address).map pyStrip).reverse with
      _ | ⟨a, _ | ⟨b, _ | ⟨c, rest⟩⟩⟩
    · rfl
    · rfl
    · rfl
    · rw [hx] at hlen
      simp at hlen
      omega
  · intro h
    unfold get_weather_from_address
    rw [h]

/-- C8 witness: `"Hamburg"` has one comma-segment, resolves to nothing, and
enrichment is a silent no-op on an arbitrary populated state. -/
theorem c8_unresolvable_address_no_io_witness :
    resolveAddress "Hamburg" = none
  ∧ get_weather_from_address (some "apikey") 7 "Hamburg"
        (.transportError "boom")
        ⟨[("weather:10115:de", ⟨wSample, 99⟩)], .failing⟩
      = (.ok none, ⟨[("weather:10115:de", ⟨wSample, 99⟩)], .failing⟩, []) := by
  have h := c8_unresolvable_address_no_io (some "apikey") 7 "Hamburg"
    (.transportError "boom") ⟨[("weather:10115:de", ⟨wSample, 99⟩)], .failing⟩
  exact ⟨h.1 (by decide), h.2 (h.1 (by decide))⟩

/-! ### C4 — the postal-code token heuristic -/

/-- `part.replace('-', '').isdigit()` holds exactly when the token is all
digits-or-hyphens AND contains at least one digit. -/
theorem zipTokenPred_eq (t : String) :
    pyIsdigit (pyRemoveDashes t) = amendedZipToken t := by
  cases t with
  | mk l =>
    simp only [pyIsdigit, pyRemoveDashes, amendedZipToken]
    have hdash : ∀ c : Char, c.isDigit = true → c ≠ '-' := by
      intro c h1 h2
      rw [h2] at h1
      exact absurd h1 (by decide)
    rw [Bool.eq_iff_iff]
    simp only [Bool.and_eq_true, Bool.not_eq_true',
      List.isEmpty_eq_false_iff_exists_mem, List.all_eq_true, List.any_eq_true,
      List.mem_filter, Bool.or_eq_true, decide_eq_true_eq]
    constructor
    · rintro ⟨⟨x, hx, hxd⟩, hall⟩
      refine ⟨fun a ha => ?_, x, hx, hall x ⟨hx, hxd⟩⟩
      by_cases h2 : a = '-'
      · right; exact h2
      · left; exact hall a ⟨ha, h2⟩
    · rintro ⟨hall, x, hx, hdx⟩
      refine ⟨⟨x, hx, hdash x hdx⟩, fun a ha => ?_⟩
      rcases hall a ha.1 with h | h
      · exact h
      · exact absurd h ha.2

/-- C4 counterexample: on `"Hauptstr. 1, - 10115 Berlin, Germany"` the
second-to-last segment's first token `"-"` consists only of digits and
hyphens, so the claim's algorithm (`specResolveClaim`, its words verbatim)
yields postal code `"-"`, while the code skips it — `"-".replace('-', '')`
is `""`, and `"".isdigit()` is false — and yields `"10115"`. -/
theorem c4_counterexample :
    resolveAddress "Hauptstr. 1, - 10115 Berlin, Germany"
      = some ("10115", "Germany")
  ∧ specResolveClaim "Hauptstr. 1, - 10115 Berlin, Germany"
      = some ("-", "Germany")
  ∧ claimZipToken "-" = true
  ∧ (some ("10115", "Germany") : Option (String × String)) ≠ some ("-", "Germany") := by
  refine ⟨rfl, rfl, rfl, ?_⟩
  intro h
  have h2 : ("10115", "Germany") = ("-", "Germany") := Option.some.inj h
  have h3 : "10115" = "-" := congrArg Prod.fst h2
  exact absurd h3 (by decide)

/-- C4 amended: the resolver behaves exactly as the claim words it once the
token predicate also requires at least one digit (an all-hyphen token is
skipped); in particular the Berlin example resolves to postal code `10115`
and country `Germany`. -/
theorem c4_resolver_amended_matches :
    (∀ address, resolveAddress address = specResolveAmended address)
  ∧ resolveAddress "Hauptstr. 1, 10115 Berlin, Germany"
      = some ("10115", "Germany") := by
  refine ⟨?_, rfl⟩
  intro address
  unfold resolveAddress specResolveAmended firstZipToken
  have hpred : (fun t => pyIsdigit (pyRemoveDashes t)) = amendedZipToken := by
    funext t
    exact zipTokenPred_eq t
  rw [hpred]

/-! ### C5 — missing response fields -/

/-- C5 counterexample: a success response whose condition list `weather` is
present but empty.  The claim counts "the first element of the weather
condition list" among the expected fields whose absence yields the
classified `MalformedResponse` `ValueError`; the code instead evaluates
`data['weather'][0]` to an `IndexError`, which no `except` clause catches,
so the propagated error is not the classified `ValueError` for any
message. -/
theorem c5_counterexample :
    ((get_weather (some "apikey") 0 "10115" "DE"
        (.response 200 (bodyEmptyConditions (.str "Berlin") (.num 20) (.num 18)
          (.num 60) (.num 5)))
        ⟨[], .absent⟩).1
      = .error .indexError)
  ∧ (∀ msg : String,
      (get_weather (some "apikey") 0 "10115" "DE"
        (.response 200 (bodyEmptyConditions (.str "Berlin") (.num 20) (.num 18)
          (.num 60) (.num 5)))
        ⟨[], .absent⟩).1
      ≠ .error (.valueError msg)) := by
  have h1 : (get_weather (some "apikey") 0 "10115" "DE"
      (.response 200 (bodyEmptyConditions (.str "Berlin") (.num 20) (.num 18)
        (.num 60) (.num 5)))
      ⟨[], .absent⟩).1 = .error .indexError := rfl
  refine ⟨h1, ?_⟩
  intro msg h
  rw [h1] at h
  simp at h

/-- C5 amended: on a success (2xx) status with the API key configured and a
cache miss for the requested key, a response body lacking one of the
expected KEYS — `name`, `main.temp`, `main.feels_like`, the `description`
of the first condition element, `main.humidity`, `wind.speed` — makes
`get_weather` raise the classified `ValueError` naming that key (the first
one missing in the source's evaluation order); but a present-and-empty
condition list instead raises an unclassified `IndexError`. -/
theorem c5_missing_key_malformed (api_key : Option String) (now : Nat)
    (zip_code country : String) (status : Nat) (s : CacheState)
    (vname vtemp vfeels vhum vdesc vwind : Json)
    (hkey : apiKeyBlank api_key = false)
    (hs1 : 200 ≤ status) (hs2 : status < 300)
    (hmiss : (getFromCache now (cacheKey zip_code country) s).1 = none) :
    ((get_weather api_key now zip_code country
        (.response status (bodyNoName vtemp vfeels vhum vdesc vwind)) s).1
      = .error (.valueError "Invalid weather API response: missing 'name'"))
  ∧ ((get_weather api_key now zip_code country
        (.response status (bodyNoTemp vname vfeels vhum vdesc vwind)) s).1
      = .error (.valueError "Invalid weather API response: missing 'temp'"))
  ∧ ((get_weather api_key now zip_code country
        (.response status (bodyNoFeels vname vtemp vhum vdesc vwind)) s).1
      = .error (.valueError "Invalid weather API response: missing 'feels_like'"))
  ∧ ((get_weather api_key now zip_code country
        (.response status (bodyNoDesc vname vtemp vfeels vhum vwind)) s).1
      = .error (.valueError "Invalid weather API response: missing 'description'"))
  ∧ ((get_weather api_key now zip_code country
        (.response status (bodyNoHumidity vname vtemp vfeels vdesc vwind)) s).1
      = .error (.valueError "Invalid weather API response: missing 'humidity'"))
  ∧ ((get_weather api_key now zip_code country
        (.response status (bodyNoSpeed vname vtemp vfeels vhum vdesc)) s).1
      = .error (.valueError "Invalid weather API response: missing 'speed'"))
  ∧ ((get_weather api_key now zip_code country
        (.response status (bodyEmptyConditions vname vtemp vfeels vhum vwind)) s).1
      = .error .indexError) := by
  rcases hgc : getFromCache now (cacheKey zip_code country) s with ⟨r1, s1⟩
  rw [hgc] at hmiss
  simp at hmiss
  subst hmiss
  have hcond : (decide (status < 200) || decide (300 ≤ status)) = false := by
    simp only [Bool.or_eq_false_iff, decide_eq_false_iff_not, Nat.not_lt,
      Nat.not_le]
    omega
  refine ⟨?_, ?_, ?_, ?_, ?_, ?_, ?_⟩ <;>
    simp [get_weather, hkey, hgc, hcond, buildWeather, getKey, getIndexZero,
      alistLookup, bodyNoName, bodyNoTemp, bodyNoFeels, bodyNoDesc,
      bodyNoHumidity, bodyNoSpeed, bodyEmptyConditions]

/-- C5 witness: concrete instance — empty cache, HTTP 200, body lacking the
`name` key — raising `ValueError("Invalid weather API response: missing
'name'")`. -/
theorem c5_missing_key_malformed_witness :
    (get_weather (some "apikey") 0 "10115" "DE"
        (.response 200 (bodyNoName (.num 20) (.num 18) (.num 60)
          (.str "clear sky") (.num 5)))
        ⟨[], .absent⟩).1
      = .error (.valueError "Invalid weather API response: missing 'name'") :=
  (c5_missing_key_malformed (some "apikey") 0 "10115" "DE" 200 ⟨[], .absent⟩
    (.num 0) (.num 20) (.num 18) (.num 60) (.str "clear sky") (.num 5)
    rfl (by decide) (by decide) rfl).1

/-! ### C10 — carrier filter -/

/-- C10 counterexample: the empty string is a carrier filter string, it does
not equal `"DHL"` ignoring case, yet `get_shipment` returns the shipment and
`get_all_shipments` does not filter — Python's `if shipment and carrier:` /
`if carrier:` treat the empty string as falsy, i.e. as no filter at all,
where the claim says a case-insensitive mismatch returns `None` /
excludes the shipment. -/
theorem c10_counterexample :
    get_shipment [("TN1", shSample)] "TN1" (some "") = some shSample
  ∧ get_all_shipments [("TN1", shSample)] (some "") = [shSample]
  ∧ shSample.carrier = "DHL"
  ∧ pyLower shSample.carrier ≠ pyLower "" := by
  refine ⟨rfl, rfl, rfl, ?_⟩
  intro h
  have h2 : "dhl" = "" := (rfl : pyLower shSample.carrier = "dhl").symm.trans h
  exact absurd h2 (by decide)

/-- C10 amended: the carrier filter is case-insensitive, with the proviso
that an ABSENT filter and the EMPTY-STRING filter alike disable filtering
(both are falsy in the source); for a present non-empty filter,
`get_shipment` returns the stored shipment exactly when its carrier equals
the filter ignoring case, and `get_all_shipments` returns exactly the
shipments whose carrier equals the filter ignoring case. -/
theorem c10_carrier_filter_case_insensitive
    (shipments : List (String × Shipment)) (tn : String) (c : String)
    (hc : c ≠ "") :
    get_shipment shipments tn none = alistLookup tn shipments
  ∧ get_shipment shipments tn (some "") = alistLookup tn shipments
  ∧ (∀ sh, get_shipment shipments tn (some c) = some sh ↔
      (alistLookup tn shipments = some sh ∧ pyLower sh.carrier = pyLower c))
  ∧ get_all_shipments shipments none = shipments.map Prod.snd
  ∧ get_all_shipments shipments (some "") = shipments.map Prod.snd
  ∧ (∀ sh, sh ∈ get_all_shipments shipments (some c) ↔
      (sh ∈ shipments.map Prod.snd ∧ pyLower sh.carrier = pyLower c)) := by
  refine ⟨?_, ?_, ?_, rfl, rfl, ?_⟩
  · unfold get_shipment
    cases alistLookup tn shipments <;> rfl
  · unfold get_shipment
    cases alistLookup tn shipments <;> rfl
  · intro sh
    unfold get_shipment
    cases hl : alistLookup tn shipments with
    | none => simp
    | some sh0 =>
      by_cases hm : pyLower sh0.carrier = pyLower c
      · simp [hc, hm]
        intro h
        rw [← h]
        exact hm
      · simp [hc, hm]
        intro h
        rw [← h]
        exact hm
  · intro sh
    unfold get_all_shipments
    simp [hc, List.mem_filter]

/-- C10 witness: a non-empty filter differing only in case matches, and
`get_all_shipments` keeps exactly the case-insensitive matches. -/
theorem c10_carrier_filter_case_insensitive_witness :
    get_shipment [("TN1", shSample)] "TN1" (some "dHl") = some shSample ↔
      (alistLookup "TN1" [("TN1", shSample)] = some shSample ∧
       pyLower shSample.carrier = pyLower "dHl") :=
  (c10_carrier_filter_case_insensitive [("TN1", shSample)] "TN1" "dHl"
    (by decide)).2.2.1 shSample

end ShipmentTracker
